import Mathlib

/-!
Verification development for the isotope_sdk python library
(package `src/python_lib/isotope/isotope/`).

The embedding below is a shallow state-passing translation of the code in
`isotope_comms_lib.py` and `port/motor.py`, `port/power_output.py`:

* the shared response dictionary (`self.responses`) becomes an association
  list `Registry` with python-dict insert/pop semantics;
* the background serial reader becomes the step function
  `serial_reader_step` applied to one decoded line at a time;
* blocking waits become structural recursion over the list of registry
  snapshots seen at the successive poll iterations;
* the serial link becomes an environment `Env`: the list of replies
  (`Option Response`, `none` standing for python `None` on timeout) that
  the successive `send_cmd` calls of an operation obtain;
* python exceptions become `Except PyError`;
* numeric values and clock readings are rationals, machine integers are
  `Nat` with explicit wrap-around where the code wraps.
-/

namespace IsotopeSDK

/-! ### Constants from isotope_comms_lib.py -/

def BOARD_NAME : String := "Isotope Board"

def CMD_TYPE_GET : String := "GET"

def CMD_TYPE_SET : String := "SET"

def SEC_POWER_OUTPUT : String := "Power_output"

def SEC_MOTOR_STEP : String := "Motor_step"

def SEC_MOTOR_RPM_SPEED : String := "Motor_rpm_speed"

def SEC_MOTOR_CURRENT_MILLIAMP : String := "Motor_current_milliamps"

def SEC_MOTOR_ENABLE : String := "Motor_enable"

def SEC_MOTOR_STEP_ANGLE : String := "Motor_step_angle"

def RES_CMD_ACK : String := "ACK"

def RES_CMD_SUCCESS : String := "SUC"

def RES_CMD_ABORT : String := "ABT"

def INC_ERR_NON_JSON_RESPONSE : String := "ERRINC1"

def INC_ERR_RESPONSE_TIMEOUT : String := "ERRINC2"

/-! ### Data model -/

/-- Mirror of class `Response` in isotope_comms_lib.py: a decoded reply
with fields `sequence`, `payload`, `error` (the status code string). -/
structure Response where
  sequence : Nat
  payload : String
  error : String
deriving DecidableEq

/-- Mirror of enum `CmdResponseType` in isotope_comms_lib.py. -/
inductive CmdResponseType where
  | Acknowledged
  | Succeeded
  | Aborted
  | Errored
deriving DecidableEq

/-- Python exceptions that the modelled code can raise. -/
inductive PyError where
  | valueError
  | zeroDivisionError
  | attributeError
  | invalidOperation
  | isotopeCommsError
deriving DecidableEq

/-- One outgoing wire command, as assembled by `_send_cmd`:
command type string, section string, item (port id) and value. -/
structure Cmd where
  ctype : String
  sec : String
  item : Nat
  value : Rat
deriving DecidableEq

/-- The environment a sequence of `send_cmd` calls runs against: for each
successive call, the reply the board produced within the timeout window
(`none` models the python `None` returned on timeout). -/
abbrev Env := List (Option Response)

/-- Take the reply for the next `send_cmd` call from the environment.
An exhausted environment yields `none` (timeout). -/
def popEnv : Env → Option Response × Env
  | [] => (none, [])
  | r :: rest => (r, rest)

/-! ### Response registry (`self.responses`, a python dict) -/

/-- The response registry: `self.responses`, a python dict from sequence
number to `Response`, kept as an association list in insertion order. -/
abbrev Registry := List (Nat × Response)

/-- Python dict assignment `d[k] = v`: replace the value of an existing
key in place, or append a fresh entry. -/
def dictInsert : Registry → Nat → Response → Registry
  | [], k, v => [(k, v)]
  | p :: rest, k, v => if p.1 = k then (k, v) :: rest else p :: dictInsert rest k v

/-- Python `k in d` and `d[k]`: the value stored under the first entry
with key `k`, if any. -/
def dictLookup : Registry → Nat → Option Response
  | [], _ => none
  | p :: rest, k => if p.1 = k then some p.2 else dictLookup rest k

/-- Python `d.pop(k)` on a present key: drop the first entry with key `k`. -/
def dictRemove : Registry → Nat → Registry
  | [], _ => []
  | p :: rest, k => if p.1 = k then rest else p :: dictRemove rest k

/-- `IsotopeCommsProtocol.retrieve_response`: if the sequence is in the
dictionary, pop and return the entry, else return `None`.  The second
component is the registry after the call. -/
def retrieve_response (reg : Registry) (seq : Nat) : Option Response × Registry :=
  match dictLookup reg seq with
  | some v => (some v, dictRemove reg seq)
  | none => (none, reg)

/-- Every entry of the registry is filed under the sequence number carried
by the stored reply.  This holds for every registry the reader thread
builds, because `_serial_reader_do_work` inserts each decoded response
`resp` at key `resp.sequence`. -/
def RegistryWF (reg : Registry) : Prop :=
  ∀ p ∈ reg, (p.2).sequence = p.1

/-- The registry keys are pairwise distinct, as in any python dict. -/
def NodupKeys (reg : Registry) : Prop :=
  (reg.map Prod.fst).Nodup

instance (reg : Registry) : Decidable (RegistryWF reg) := by
  unfold RegistryWF; infer_instance

instance (reg : Registry) : Decidable (NodupKeys reg) := by
  unfold NodupKeys; infer_instance

/-! ### Frame decoding and the reader thread -/

/-- The outcome of `json.loads` on one incoming line, with the three field
lookups the code performs afterwards: `none` models a line that is not
valid JSON; a present record may still lack any of the `seq`, `payload`,
`error` keys. -/
structure RawRecord where
  seq : Option Nat
  payload : Option String
  error : Option String
deriving DecidableEq

/-- `IsotopeCommsProtocol._unpack_response`: build a `Response` from the
parsed record; any parse or key failure is caught by the bare `except`
and turned into `None`. -/
def unpack_response : Option RawRecord → Option Response
  | none => none
  | some rec =>
    match rec.seq, rec.payload, rec.error with
    | some s, some p, some e => some ⟨s, p, e⟩
    | _, _, _ => none

/-- One iteration of `IsotopeCommsProtocol._serial_reader_do_work` after a
line has been read: decode it and, only when a `Response` came back
(`if resp is not None`), store it under its own sequence number. -/
def serial_reader_step (reg : Registry) (line : Option RawRecord) : Registry :=
  match unpack_response line with
  | none => reg
  | some r => dictInsert reg r.sequence r

/-! ### Command dispatch -/

/-- `IsotopeCommsProtocol.is_resp_ok`: classify a reply (or `None`) into a
`CmdResponseType`; anything other than ACK, SUC, ABT, `None` included,
is `Errored`. -/
def is_resp_ok : Option Response → CmdResponseType
  | none => .Errored
  | some resp =>
    if resp.error = RES_CMD_ACK then .Acknowledged
    else if resp.error = RES_CMD_SUCCESS then .Succeeded
    else if resp.error = RES_CMD_ABORT then .Aborted
    else .Errored

/-- The counter update in `send_cmd`: `self.sequence += 1` followed by the
reset `if self.sequence > 65535: self.sequence = 0`. -/
def nextSequence (s : Nat) : Nat :=
  if s + 1 > 65535 then 0 else s + 1

/-- The counter value seen by the k-th `send_cmd` call (calls counted from
zero) when the counter holds `initial` before the first of them: each call
uses the current value and then advances it with `nextSequence`. -/
def seqAfterCalls : Nat → Nat → Nat
  | s, 0 => s
  | s, k + 1 => seqAfterCalls (nextSequence s) k

/-- `IsotopeCommsProtocol.wait_and_retrieve_response`: poll
`retrieve_response` once per tick until it yields a reply, or return
`None` when the timeout window is exhausted.  `regs` lists the registry
contents at the successive poll iterations (the reader thread mutates the
dict between polls); its length is the number of polls the timeout allows. -/
def wait_and_retrieve_response : List Registry → Nat → Option Response
  | [], _ => none
  | reg :: rest, seq =>
    match (retrieve_response reg seq).1 with
    | some resp => some resp
    | none => wait_and_retrieve_response rest seq

/-- The result of `IsotopeCommsProtocol.send_cmd`: the allocated sequence
number when `wait_for_answer` is false, otherwise the outcome of
`wait_and_retrieve_response` (a `Response`, or `None` on timeout). -/
inductive SendResult where
  | seq (n : Nat)
  | resp (r : Option Response)
deriving DecidableEq

/-- `IsotopeCommsProtocol.send_cmd`: read the counter into `cmd_sequence`,
write the command, advance the counter, and either return the sequence at
once or block on `wait_and_retrieve_response`.  The second component is
the counter after the call. -/
def send_cmd (counter : Nat) (regs : List Registry) (wait_for_answer : Bool) :
    SendResult × Nat :=
  let cmd_sequence := counter
  let counter1 := nextSequence counter
  if wait_for_answer = false then (.seq cmd_sequence, counter1)
  else (.resp (wait_and_retrieve_response regs cmd_sequence), counter1)

/-! ### Motor port state machine (port/motor.py) -/

/-- The mutable fields of a `MotorPort` instance, as set up by
`MotorPort.__init__`. -/
structure MotorState where
  id : Nat
  resolution : Rat
  rpm : Rat
  current : Rat
  enabled : Bool
  configureRequested : Bool
  configured : Bool
  busy : Bool
  currentSequence : Nat
  lastBusyQueryTime : Rat
  isBusyQueryDelay : Rat
deriving DecidableEq

namespace MotorPort

/-- The state `MotorPort.__init__` leaves behind for a valid port id:
all parameters zero, all flags cleared, busy-poll grace period 0.1 s. -/
def initState (id : Nat) : MotorState :=
  { id := id
    resolution := 0
    rpm := 0
    current := 0
    enabled := false
    configureRequested := false
    configured := false
    busy := false
    currentSequence := 0
    lastBusyQueryTime := 0
    isBusyQueryDelay := 1 / 10 }

/-- `MotorPort.__init__`: reject port ids outside 0..3 with `ValueError`,
otherwise build the initial state. -/
def init (id : Nat) : Except PyError MotorState :=
  if id > 3 then .error .valueError else .ok (initState id)

/-- `MotorPort.set_rpm`: one SET exchange; on `Succeeded` cache the new
value and return true, otherwise leave the cache untouched and return
false. -/
def set_rpm (st : MotorState) (value : Rat) (env : Env) :
    Bool × MotorState × Env × List Cmd :=
  let (resp, env1) := popEnv env
  let sent : List Cmd := [⟨CMD_TYPE_SET, SEC_MOTOR_RPM_SPEED, st.id, value⟩]
  if is_resp_ok resp = .Succeeded then (true, { st with rpm := value }, env1, sent)
  else (false, st, env1, sent)

/-- `MotorPort.set_current`: one SET exchange; on `Succeeded` cache the
new value and return true, otherwise return false. -/
def set_current (st : MotorState) (value : Rat) (env : Env) :
    Bool × MotorState × Env × List Cmd :=
  let (resp, env1) := popEnv env
  let sent : List Cmd := [⟨CMD_TYPE_SET, SEC_MOTOR_CURRENT_MILLIAMP, st.id, value⟩]
  if is_resp_ok resp = .Succeeded then (true, { st with current := value }, env1, sent)
  else (false, st, env1, sent)

/-- `MotorPort.set_resolution`: one SET exchange; on `Succeeded` cache the
new value and return true, otherwise return false. -/
def set_resolution (st : MotorState) (value : Rat) (env : Env) :
    Bool × MotorState × Env × List Cmd :=
  let (resp, env1) := popEnv env
  let sent : List Cmd := [⟨CMD_TYPE_SET, SEC_MOTOR_STEP_ANGLE, st.id, value⟩]
  if is_resp_ok resp = .Succeeded then (true, { st with resolution := value }, env1, sent)
  else (false, st, env1, sent)

/-- `MotorPort._configure`: raise `InvalidOperationException` when no
parameters were ever requested; otherwise run the short-circuit
conjunction `set_rpm(...) and set_current(...) and set_resolution(...)`
and, when all three succeeded, latch `configured` and clear the request
flag. -/
def configureImpl (st : MotorState) (env : Env) :
    Except PyError (Bool × MotorState) × Env × List Cmd :=
  if st.configureRequested = false then (.error .invalidOperation, env, [])
  else
    let (b1, st1, env1, c1) := set_rpm st st.rpm env
    if b1 = false then (.ok (false, st1), env1, c1)
    else
      let (b2, st2, env2, c2) := set_current st1 st1.current env1
      if b2 = false then (.ok (false, st2), env2, c1 ++ c2)
      else
        let (b3, st3, env3, c3) := set_resolution st2 st2.resolution env2
        if b3 = false then (.ok (false, st3), env3, c1 ++ c2 ++ c3)
        else (.ok (true, { st3 with configured := true, configureRequested := false }),
              env3, c1 ++ c2 ++ c3)

/-- `MotorPort.configure`: reject any negative parameter with
`ValueError`; otherwise store the parameters, clear `configured`, set the
request flag, and attempt the device push, swallowing `IsotopeCommsError`.
The function body has no return statement on this path, so python hands
back `None`, modelled as `Unit`. -/
def configure (st : MotorState) (resolution current : Rat) (rpm : Rat) (env : Env) :
    Except PyError (Unit × MotorState) × Env × List Cmd :=
  if resolution < 0 then (.error .valueError, env, [])
  else if rpm < 0 then (.error .valueError, env, [])
  else if current < 0 then (.error .valueError, env, [])
  else
    let st1 := { st with
      configured := false
      configureRequested := true
      resolution := resolution
      rpm := rpm
      current := current }
    match configureImpl st1 env with
    | (.ok (_, st2), env2, cs) => (.ok ((), st2), env2, cs)
    | (.error e, env2, cs) => (.error e, env2, cs)

/-- `MotorPort.enable`: when not yet configured, first rerun
`_configure` (its boolean result is discarded); then one SET
`Motor_enable 1` exchange; on `Succeeded` set `enabled` and clear `busy`,
returning true, otherwise return false. -/
def enable (st : MotorState) (env : Env) :
    Except PyError (Bool × MotorState) × Env × List Cmd :=
  let step1 : Except PyError (Bool × MotorState) × Env × List Cmd :=
    if st.configured = true then (.ok (true, st), env, [])
    else configureImpl st env
  match step1 with
  | (.error e, env1, cs1) => (.error e, env1, cs1)
  | (.ok (_, st1), env1, cs1) =>
    let (resp, env2) := popEnv env1
    let sent := cs1 ++ [⟨CMD_TYPE_SET, SEC_MOTOR_ENABLE, st.id, 1⟩]
    if is_resp_ok resp = .Succeeded then
      (.ok (true, { st1 with enabled := true, busy := false }), env2, sent)
    else (.ok (false, st1), env2, sent)

/-- `MotorPort.rotate_by_steps`: raise `InvalidOperationException` when
the port is not enabled, before anything is written; otherwise send SET
`Motor_step`, stamp the busy-query clock, and classify the immediate
reply: ACK marks the port busy and records the sequence carried by the
reply, SUC returns plain success, anything else fails.  (In the ACK
branch the code reads `resp.sequence`; a `None` there would be an
`AttributeError`, but `is_resp_ok` maps `None` to `Errored`, so that
branch is unreachable.) -/
def rotate_by_steps (st : MotorState) (steps : Rat) (env : Env) (now : Rat) :
    Except PyError (Bool × MotorState) × Env × List Cmd :=
  if st.enabled = false then (.error .invalidOperation, env, [])
  else
    let (resp, env1) := popEnv env
    let sent : List Cmd := [⟨CMD_TYPE_SET, SEC_MOTOR_STEP, st.id, steps⟩]
    let st0 := { st with lastBusyQueryTime := now }
    if is_resp_ok resp = .Acknowledged then
      match resp with
      | some r =>
        (.ok (true, { st0 with busy := true, currentSequence := r.sequence }), env1, sent)
      | none => (.error .attributeError, env1, sent)
    else if is_resp_ok resp = .Succeeded then (.ok (true, st0), env1, sent)
    else (.ok (false, st0), env1, sent)

/-- `MotorPort.rotate_by_degrees`: compute
`steps = degrees / self._resolution` and delegate to `rotate_by_steps`.
A zero step resolution makes the division raise `ZeroDivisionError`
before `rotate_by_steps` is reached. -/
def rotate_by_degrees (st : MotorState) (degrees : Rat) (env : Env) (now : Rat) :
    Except PyError (Bool × MotorState) × Env × List Cmd :=
  if st.resolution = 0 then (.error .zeroDivisionError, env, [])
  else rotate_by_steps st (degrees / st.resolution) env now

/-- `MotorPort.is_busy_from_board`: the very first statement evaluates
`icl.SEC_MOTOR_BUSY` as an argument to `send_cmd`, but
`isotope_comms_lib.py` defines no constant of that name (its section list
ends at `SEC_MOTOR_STEP_ANGLE`), so the attribute access raises
`AttributeError` before any command is written. -/
def is_busy_from_board (_st : MotorState) : Except PyError Bool :=
  .error .attributeError

/-- `MotorPort.is_motion_completed`: not busy returns true at once; busy
pops the in-flight sequence from the registry and returns true on SUC or
ABT (the local state is not touched on this path); otherwise, once the
0.1 s grace period since the last busy query has elapsed, falls back to
`is_busy_from_board`; otherwise returns false.  The second component is
the registry after the non-blocking take. -/
def is_motion_completed (st : MotorState) (reg : Registry) (now : Rat) :
    Except PyError (Bool × MotorState) × Registry :=
  if st.busy = false then (.ok (true, st), reg)
  else
    let (resp, reg1) := retrieve_response reg st.currentSequence
    if is_resp_ok resp = .Succeeded ∨ is_resp_ok resp = .Aborted then
      (.ok (true, st), reg1)
    else if st.isBusyQueryDelay < now - st.lastBusyQueryTime then
      match is_busy_from_board st with
      | .ok b => (.ok (!b, { st with lastBusyQueryTime := now }), reg1)
      | .error e => (.error e, reg1)
    else (.ok (false, st), reg1)

end MotorPort

/-! ### Power output port (port/power_output.py) -/

/-- The mutable fields of a `PowerOutputPort` instance. -/
structure PowerState where
  id : Nat
  defaultPwm : Int
  currentPwm : Int
deriving DecidableEq

/-- Python truthiness of a `CmdResponseType` value: `CmdResponseType` is a
plain `Enum` and defines no `__bool__` or `__len__`, so every member is
truthy, including `Errored` (whose payload value 0 is irrelevant).
`PowerOutputPort` tests `if self._comms.is_resp_ok(msg):` directly on the
member, so the test is always taken. -/
def cmdResponseTruthy (_c : CmdResponseType) : Bool :=
  true

namespace PowerOutputPort

/-- `PowerOutputPort.disable`: send SET `Power_output 0` and test the
truthiness of the `is_resp_ok` result. -/
def disable (st : PowerState) (env : Env) :
    Except PyError (Bool × PowerState) × Env × List Cmd :=
  let (resp, env1) := popEnv env
  let sent : List Cmd := [⟨CMD_TYPE_SET, SEC_POWER_OUTPUT, st.id, 0⟩]
  if cmdResponseTruthy (is_resp_ok resp) = true then
    (.ok (true, { st with currentPwm := 0 }), env1, sent)
  else (.ok (false, st), env1, sent)

/-- `PowerOutputPort.enable`: reject an out-of-range pwm with
`ValueError`; delegate `pwm == 0` to `disable`; default a missing pwm to
`default_pwm`; then send SET `Power_output` and test the truthiness of
the `is_resp_ok` result. -/
def enable (st : PowerState) (pwm : Option Int) (env : Env) :
    Except PyError (Bool × PowerState) × Env × List Cmd :=
  -- the range check fires only when pwm is not None; `None == 0` is false,
  -- so a missing pwm falls through to the default before the send
  match pwm with
  | some p =>
    if p < 0 ∨ 1024 < p then (.error .valueError, env, [])
    else if p = 0 then disable st env
    else
      let (resp, env1) := popEnv env
      let sent : List Cmd := [⟨CMD_TYPE_SET, SEC_POWER_OUTPUT, st.id, (p : Rat)⟩]
      if cmdResponseTruthy (is_resp_ok resp) = true then
        (.ok (true, { st with currentPwm := p }), env1, sent)
      else (.ok (false, st), env1, sent)
  | none =>
    let p := st.defaultPwm
    let (resp, env1) := popEnv env
    let sent : List Cmd := [⟨CMD_TYPE_SET, SEC_POWER_OUTPUT, st.id, (p : Rat)⟩]
    if cmdResponseTruthy (is_resp_ok resp) = true then
      (.ok (true, { st with currentPwm := p }), env1, sent)
    else (.ok (false, st), env1, sent)

end PowerOutputPort

/-! ### Helper lemmas on the registry -/

theorem dictLookup_dictInsert_self (reg : Registry) (k : Nat) (v : Response) :
    dictLookup (dictInsert reg k v) k = some v := by
  induction reg with
  | nil => simp [dictInsert, dictLookup]
  | cons p rest ih =>
    by_cases h : p.1 = k
    · simp [dictInsert, dictLookup, h]
    · simp [dictInsert, dictLookup, h, ih]

theorem mem_dictInsert (reg : Registry) (k : Nat) (v : Response) (q : Nat × Response)
    (hq : q ∈ dictInsert reg k v) : q = (k, v) ∨ q ∈ reg := by
  induction reg with
  | nil => simpa [dictInsert] using hq
  | cons p rest ih =>
    by_cases h : p.1 = k
    · rcases (by simpa [dictInsert, h] using hq) with h1 | h1
      · exact Or.inl h1
      · exact Or.inr (List.mem_cons_of_mem _ h1)
    · rcases (by simpa [dictInsert, h] using hq) with h1 | h1
      · exact Or.inr (by simp [h1])
      · rcases ih h1 with h2 | h2
        · exact Or.inl h2
        · exact Or.inr (List.mem_cons_of_mem _ h2)

theorem mem_keys_dictInsert (reg : Registry) (k : Nat) (v : Response) (j : Nat)
    (hj : j ∈ (dictInsert reg k v).map Prod.fst) : j = k ∨ j ∈ reg.map Prod.fst := by
  rcases List.mem_map.1 hj with ⟨q, hq, rfl⟩
  rcases mem_dictInsert reg k v q hq with h | h
  · exact Or.inl (by simp [h])
  · exact Or.inr (List.mem_map_of_mem _ h)

theorem nodupKeys_dictInsert (reg : Registry) (k : Nat) (v : Response)
    (h : NodupKeys reg) : NodupKeys (dictInsert reg k v) := by
  induction reg with
  | nil => simp [NodupKeys, dictInsert]
  | cons p rest ih =>
    have hph : p.1 ∉ rest.map Prod.fst := by
      have := h
      simp only [NodupKeys, List.map_cons, List.nodup_cons] at this
      exact this.1
    have hrest : NodupKeys rest := by
      have := h
      simp only [NodupKeys, List.map_cons, List.nodup_cons] at this
      exact this.2
    by_cases hk : p.1 = k
    · have hins : dictInsert (p :: rest) k v = (k, v) :: rest := by
        simp [dictInsert, hk]
      rw [NodupKeys, hins]
      simp only [List.map_cons, List.nodup_cons]
      exact ⟨hk ▸ hph, hrest⟩
    · simp only [NodupKeys, dictInsert, if_neg hk, List.map_cons, List.nodup_cons]
      refine ⟨fun hmem => ?_, ih hrest⟩
      rcases mem_keys_dictInsert rest k v p.1 hmem with h1 | h1
      · exact hk h1
      · exact hph h1

theorem dictLookup_eq_none_of_not_mem (reg : Registry) (k : Nat)
    (h : k ∉ reg.map Prod.fst) : dictLookup reg k = none := by
  induction reg with
  | nil => simp [dictLookup]
  | cons p rest ih =>
    simp only [List.map_cons, List.mem_cons, not_or] at h
    have hpk : p.1 ≠ k := fun hc => h.1 hc.symm
    simp [dictLookup, hpk, ih h.2]

theorem dictLookup_dictRemove_self (reg : Registry) (k : Nat)
    (h : NodupKeys reg) : dictLookup (dictRemove reg k) k = none := by
  induction reg with
  | nil => simp [dictRemove, dictLookup]
  | cons p rest ih =>
    have hph : p.1 ∉ rest.map Prod.fst := by
      have := h
      simp only [NodupKeys, List.map_cons, List.nodup_cons] at this
      exact this.1
    have hrest : NodupKeys rest := by
      have := h
      simp only [NodupKeys, List.map_cons, List.nodup_cons] at this
      exact this.2
    by_cases hk : p.1 = k
    · subst hk
      simp only [dictRemove, if_pos rfl]
      exact dictLookup_eq_none_of_not_mem rest p.1 hph
    · simp [dictRemove, dictLookup, hk, ih hrest]

theorem dictLookup_mem (reg : Registry) (k : Nat) (v : Response)
    (h : dictLookup reg k = some v) : (k, v) ∈ reg := by
  induction reg with
  | nil => simp [dictLookup] at h
  | cons p rest ih =>
    by_cases hk : p.1 = k
    · simp only [dictLookup, if_pos hk] at h
      have : p = (k, v) := by
        cases p with
        | mk a b =>
          simp_all
      simp [this]
    · simp only [dictLookup, if_neg hk] at h
      exact List.mem_cons_of_mem _ (ih h)

/-- The reader thread preserves registry well-formedness: it files each
decoded reply under the sequence number the reply itself carries. -/
theorem registryWF_serial_reader_step (reg : Registry) (line : Option RawRecord)
    (h : RegistryWF reg) : RegistryWF (serial_reader_step reg line) := by
  unfold serial_reader_step
  cases hu : unpack_response line with
  | none => exact h
  | some r =>
    intro p hp
    rcases mem_dictInsert reg r.sequence r p hp with h1 | h1
    · simp [h1]
    · exact h p h1

/-! ### Arithmetic of the sequence counter -/

theorem nextSequence_lt (s : Nat) (h : s < 65536) : nextSequence s < 65536 := by
  unfold nextSequence
  split <;> omega

theorem nextSequence_eq_mod (s : Nat) (h : s < 65536) :
    nextSequence s = (s + 1) % 65536 := by
  unfold nextSequence
  split <;> omega

/-! ### Claim C1 -/

theorem wait_and_retrieve_matches (regs : List Registry) (seq : Nat) :
    (∀ reg ∈ regs, RegistryWF reg) →
    wait_and_retrieve_response regs seq = none ∨
      ∃ r, wait_and_retrieve_response regs seq = some r ∧ r.sequence = seq := by
  induction regs with
  | nil => intro _; exact Or.inl rfl
  | cons reg rest ih =>
    intro hwf
    have hreg : RegistryWF reg := hwf reg (by simp)
    have hrest : ∀ g ∈ rest, RegistryWF g := fun g hg => hwf g (by simp [hg])
    cases hl : dictLookup reg seq with
    | some v =>
      refine Or.inr ⟨v, ?_, hreg (seq, v) (dictLookup_mem reg seq v hl)⟩
      simp [wait_and_retrieve_response, retrieve_response, hl]
    | none =>
      have hstep : wait_and_retrieve_response (reg :: rest) seq =
          wait_and_retrieve_response rest seq := by
        simp [wait_and_retrieve_response, retrieve_response, hl]
      rw [hstep]
      exact ih hrest

/-- Claim C1, counterexample to the statement as written: with no reply
ever inserted, `send_cmd` with `wait_for_answer` true returns python
`None` after the timeout window, not a `Reply` of any kind, so it returns
no Errored(Timeout) `Reply` object. -/
theorem claim_C1_counterexample :
    (send_cmd 5 ([] : List Registry) true).1 = SendResult.resp none ∧
    ¬ ∃ r : Response, (send_cmd 5 ([] : List Registry) true).1 =
      SendResult.resp (some r) := by
  refine ⟨rfl, ?_⟩
  rintro ⟨r, hr⟩
  simp [send_cmd, wait_and_retrieve_response] at hr

/-- Claim C1 (amended): over registries built by the reader thread
(every entry filed under the sequence its reply carries), `send_cmd` with
`wait_for_answer` true either returns a reply whose sequence equals the
sequence allocated for the command, or returns `None` when no matching
reply is inserted within the timeout window — never any other result.
The timeout outcome is `None`, which `is_resp_ok` classifies as
`Errored`, not a synthetic Timeout reply object. -/
theorem claim_C1_send_cmd_matching_or_none (counter : Nat) (regs : List Registry)
    (hwf : ∀ reg ∈ regs, RegistryWF reg) :
    (send_cmd counter regs true).1 = SendResult.resp none ∨
      ∃ r : Response, (send_cmd counter regs true).1 = SendResult.resp (some r) ∧
        r.sequence = counter := by
  rcases wait_and_retrieve_matches regs counter hwf with h | ⟨r, hr, hseq⟩
  · exact Or.inl (by simp [send_cmd, h])
  · exact Or.inr ⟨r, by simp [send_cmd, hr], hseq⟩

/-- Claim C1 witness: a registry trace holding the matching reply for
sequence 5 satisfies the hypothesis, and the theorem applies. -/
theorem claim_C1_witness :
    (send_cmd 5 [[(5, (⟨5, "", "SUC"⟩ : Response))]] true).1 = SendResult.resp none ∨
      ∃ r : Response, (send_cmd 5 [[(5, (⟨5, "", "SUC"⟩ : Response))]] true).1 =
        SendResult.resp (some r) ∧ r.sequence = 5 :=
  claim_C1_send_cmd_matching_or_none 5 [[(5, (⟨5, "", "SUC"⟩ : Response))]] (by decide)

/-! ### Claim C2 -/

/-- Claim C2: the response registry holds at most one live entry per
sequence.  Over any registry with pairwise distinct keys (as in any
python dict): inserting under a sequence that already holds an entry
overwrites it, so the next lookup and the next take both yield the new
value (last write wins); key distinctness is preserved; and a successful
take removes the entry, so a second take of the same sequence returns
`None` unless a new reply was inserted in between. -/
theorem claim_C2_registry_single_live_entry (reg : Registry) (k : Nat) (v : Response)
    (h : NodupKeys reg) :
    dictLookup (dictInsert reg k v) k = some v ∧
    NodupKeys (dictInsert reg k v) ∧
    (retrieve_response (dictInsert reg k v) k).1 = some v ∧
    (∀ v₀, (retrieve_response reg k).1 = some v₀ →
      (retrieve_response ((retrieve_response reg k).2) k).1 = none) := by
  refine ⟨dictLookup_dictInsert_self reg k v, nodupKeys_dictInsert reg k v h, ?_, ?_⟩
  · simp [retrieve_response, dictLookup_dictInsert_self reg k v]
  · intro v₀ h0
    have h2 : (retrieve_response reg k).2 = dictRemove reg k := by
      cases hl : dictLookup reg k with
      | none => simp [retrieve_response, hl] at h0
      | some w => simp [retrieve_response, hl]
    rw [h2]
    simp [retrieve_response, dictLookup_dictRemove_self reg k h]

/-- Claim C2 witness: a concrete one-entry registry, overwritten under
the same sequence, taken, and taken again. -/
theorem claim_C2_witness :
    dictLookup (dictInsert [(3, (⟨3, "1", "SUC"⟩ : Response))] 3 ⟨3, "", "ACK"⟩) 3 =
      some ⟨3, "", "ACK"⟩ ∧
    NodupKeys (dictInsert [(3, (⟨3, "1", "SUC"⟩ : Response))] 3 ⟨3, "", "ACK"⟩) ∧
    (retrieve_response (dictInsert [(3, (⟨3, "1", "SUC"⟩ : Response))] 3 ⟨3, "", "ACK"⟩) 3).1 =
      some ⟨3, "", "ACK"⟩ ∧
    (∀ v₀, (retrieve_response [(3, (⟨3, "1", "SUC"⟩ : Response))] 3).1 = some v₀ →
      (retrieve_response ((retrieve_response [(3, (⟨3, "1", "SUC"⟩ : Response))] 3).2) 3).1 =
        none) :=
  claim_C2_registry_single_live_entry [(3, ⟨3, "1", "SUC"⟩)] 3 ⟨3, "", "ACK"⟩ (by decide)

/-! ### Claim C3 -/

/-- Claim C3: sequence allocation is monotonic modulo 65536.  Starting
from counter value `initial`, the call made after `k` previous calls
(calls counted from zero) uses sequence `(initial + k) mod 65536`, and
every `send_cmd` call advances the counter with the increment-and-wrap
step `nextSequence`. -/
theorem claim_C3_sequence_allocation (initial k : Nat) (h : initial < 65536) :
    seqAfterCalls initial k = (initial + k) % 65536 ∧
    ∀ (regs : List Registry) (w : Bool) (c : Nat),
      (send_cmd c regs w).2 = nextSequence c := by
  constructor
  · induction k generalizing initial with
    | zero => simp [seqAfterCalls, Nat.mod_eq_of_lt h]
    | succ n ih =>
      have h1 : seqAfterCalls initial (n + 1) = seqAfterCalls (nextSequence initial) n := rfl
      rw [h1, ih (nextSequence initial) (nextSequence_lt initial h),
        nextSequence_eq_mod initial h, Nat.mod_add_mod]
      omega
  · intro regs w c
    cases w <;> rfl

/-- Claim C3 witness: starting at 65535, the fourth call (three calls
after the first) wraps around to sequence 2. -/
theorem claim_C3_witness :
    seqAfterCalls 65535 3 = (65535 + 3) % 65536 ∧
    ∀ (regs : List Registry) (w : Bool) (c : Nat),
      (send_cmd c regs w).2 = nextSequence c :=
  claim_C3_sequence_allocation 65535 3 (by decide)

/-! ### Claim C4 -/

/-- Claim C4, counterexample to the statement as written: a line that
fails to parse produces python `None` from `_unpack_response`, not a
`Reply` with a MalformedFrame status and empty payload — no `Reply`
object of any kind comes back for it. -/
theorem claim_C4_counterexample :
    unpack_response none = none ∧
    ¬ ∃ r : Response, unpack_response none = some r := by
  refine ⟨rfl, ?_⟩
  rintro ⟨r, hr⟩
  simp [unpack_response] at hr

/-- Claim C4 (amended): for every incoming line that fails to decode as a
record with `seq`, `payload` and `error` fields, `_unpack_response`
returns `None` and the reader discards the line, leaving the registry
unchanged; the reader inserts into the registry exactly on successful
decode, under the sequence number the reply carries. -/
theorem claim_C4_reader_inserts_only_on_decode (reg : Registry) (line : Option RawRecord) :
    (unpack_response line = none → serial_reader_step reg line = reg) ∧
    (∀ r, unpack_response line = some r →
      serial_reader_step reg line = dictInsert reg r.sequence r) := by
  constructor
  · intro h; simp [serial_reader_step, h]
  · intro r h; simp [serial_reader_step, h]

/-- Claim C4 witness: a non-JSON line leaves an empty registry empty. -/
theorem claim_C4_witness : serial_reader_step [] none = [] :=
  (claim_C4_reader_inserts_only_on_decode [] none).1 rfl

/-! ### Behaviour of the configuration push (`MotorPort._configure`) -/

/-- With parameters requested, `_configure` never raises: it returns the
boolean outcome of the three-way short-circuit push, caches nothing new
(each SET re-stores the value already held), keeps the request flag up
whenever configuration is still pending, and its first outgoing command
is the `Motor_rpm_speed` SET. -/
theorem configureImpl_spec (st : MotorState) (env : Env)
    (h : st.configureRequested = true) :
    ∃ b st' env' cs,
      MotorPort.configureImpl st env = (.ok (b, st'), env', cs) ∧
      st'.resolution = st.resolution ∧
      st'.rpm = st.rpm ∧
      st'.current = st.current ∧
      st'.id = st.id ∧
      (st'.configured = false → st'.configureRequested = true) ∧
      cs.head? = some ⟨CMD_TYPE_SET, SEC_MOTOR_RPM_SPEED, st.id, st.rpm⟩ := by
  obtain ⟨pid, res0, rpm0, cur0, en0, creq0, conf0, busy0, cseq0, lbt0, dly0⟩ := st
  simp only at h
  subst h
  rcases hp1 : popEnv env with ⟨r1, e1⟩
  by_cases h1 : is_resp_ok r1 = .Succeeded
  · rcases hp2 : popEnv e1 with ⟨r2, e2⟩
    by_cases h2 : is_resp_ok r2 = .Succeeded
    · rcases hp3 : popEnv e2 with ⟨r3, e3⟩
      by_cases h3 : is_resp_ok r3 = .Succeeded
      · refine ⟨true, ⟨pid, res0, rpm0, cur0, en0, false, true, busy0, cseq0, lbt0, dly0⟩, e3,
          [⟨CMD_TYPE_SET, SEC_MOTOR_RPM_SPEED, pid, rpm0⟩,
           ⟨CMD_TYPE_SET, SEC_MOTOR_CURRENT_MILLIAMP, pid, cur0⟩,
           ⟨CMD_TYPE_SET, SEC_MOTOR_STEP_ANGLE, pid, res0⟩],
          ?_, rfl, rfl, rfl, rfl, fun hc => by simp at hc, rfl⟩
        simp [MotorPort.configureImpl, MotorPort.set_rpm, MotorPort.set_current,
          MotorPort.set_resolution, hp1, hp2, hp3, h1, h2, h3]
      · refine ⟨false, ⟨pid, res0, rpm0, cur0, en0, true, conf0, busy0, cseq0, lbt0, dly0⟩, e3,
          [⟨CMD_TYPE_SET, SEC_MOTOR_RPM_SPEED, pid, rpm0⟩,
           ⟨CMD_TYPE_SET, SEC_MOTOR_CURRENT_MILLIAMP, pid, cur0⟩,
           ⟨CMD_TYPE_SET, SEC_MOTOR_STEP_ANGLE, pid, res0⟩],
          ?_, rfl, rfl, rfl, rfl, fun _ => rfl, rfl⟩
        simp [MotorPort.configureImpl, MotorPort.set_rpm, MotorPort.set_current,
          MotorPort.set_resolution, hp1, hp2, hp3, h1, h2, h3]
    · refine ⟨false, ⟨pid, res0, rpm0, cur0, en0, true, conf0, busy0, cseq0, lbt0, dly0⟩, e2,
        [⟨CMD_TYPE_SET, SEC_MOTOR_RPM_SPEED, pid, rpm0⟩,
         ⟨CMD_TYPE_SET, SEC_MOTOR_CURRENT_MILLIAMP, pid, cur0⟩],
        ?_, rfl, rfl, rfl, rfl, fun _ => rfl, rfl⟩
      simp [MotorPort.configureImpl, MotorPort.set_rpm, MotorPort.set_current,
        hp1, hp2, h1, h2]
  · refine ⟨false, ⟨pid, res0, rpm0, cur0, en0, true, conf0, busy0, cseq0, lbt0, dly0⟩, e1,
      [⟨CMD_TYPE_SET, SEC_MOTOR_RPM_SPEED, pid, rpm0⟩],
      ?_, rfl, rfl, rfl, rfl, fun _ => rfl, rfl⟩
    simp [MotorPort.configureImpl, MotorPort.set_rpm, hp1, h1]

/-! ### Claim C5 -/

/-- Claim C5: `rotate_by_steps` on a port that is not enabled raises
`InvalidOperationException` before anything reaches the transport (no
command is written and the reply environment is untouched); on an enabled
port exactly one `Motor_step` SET goes out, the call returns true exactly
when the immediate reply classifies as Acknowledged or Succeeded (false
otherwise, a timeout included, since `None` classifies as Errored), and
on Acknowledged the port is marked busy and the sequence carried by the
reply is stored as the in-flight sequence. -/
theorem claim_C5_rotate_by_steps_contract (st : MotorState) (steps : Rat)
    (env : Env) (now : Rat) :
    (st.enabled = false →
      MotorPort.rotate_by_steps st steps env now = (.error .invalidOperation, env, [])) ∧
    (st.enabled = true →
      ∃ b st',
        MotorPort.rotate_by_steps st steps env now =
          (.ok (b, st'), (popEnv env).2, [⟨CMD_TYPE_SET, SEC_MOTOR_STEP, st.id, steps⟩]) ∧
        (b = true ↔ (is_resp_ok (popEnv env).1 = .Acknowledged ∨
          is_resp_ok (popEnv env).1 = .Succeeded)) ∧
        (is_resp_ok (popEnv env).1 = .Acknowledged →
          st'.busy = true ∧
            ∃ r, (popEnv env).1 = some r ∧ st'.currentSequence = r.sequence)) := by
  constructor
  · intro h
    simp [MotorPort.rotate_by_steps, h]
  · intro h
    rcases hpe : popEnv env with ⟨resp, env1⟩
    cases resp with
    | none =>
      refine ⟨false, { st with lastBusyQueryTime := now }, ?_, ?_, ?_⟩
      · simp [MotorPort.rotate_by_steps, h, hpe, is_resp_ok]
      · simp [hpe, is_resp_ok]
      · simp [hpe, is_resp_ok]
    | some r =>
      by_cases ha : r.error = "ACK"
      · refine ⟨true,
          { st with lastBusyQueryTime := now, busy := true, currentSequence := r.sequence },
          ?_, ?_, ?_⟩
        · simp [MotorPort.rotate_by_steps, h, hpe, is_resp_ok, ha, RES_CMD_ACK]
        · simp [hpe, is_resp_ok, ha, RES_CMD_ACK]
        · intro _
          exact ⟨rfl, r, by simp [hpe], rfl⟩
      · by_cases hs : r.error = "SUC"
        · refine ⟨true, { st with lastBusyQueryTime := now }, ?_, ?_, ?_⟩
          · simp [MotorPort.rotate_by_steps, h, hpe, is_resp_ok, ha, hs,
              RES_CMD_ACK, RES_CMD_SUCCESS]
          · simp [hpe, is_resp_ok, ha, hs, RES_CMD_ACK, RES_CMD_SUCCESS]
          · simp [hpe, is_resp_ok, ha, hs, RES_CMD_ACK, RES_CMD_SUCCESS]
        · refine ⟨false, { st with lastBusyQueryTime := now }, ?_, ?_, ?_⟩
          · by_cases hb : r.error = "ABT" <;>
              simp [MotorPort.rotate_by_steps, h, hpe, is_resp_ok, ha, hs, hb,
                RES_CMD_ACK, RES_CMD_SUCCESS, RES_CMD_ABORT]
          · by_cases hb : r.error = "ABT" <;>
              simp [hpe, is_resp_ok, ha, hs, hb,
                RES_CMD_ACK, RES_CMD_SUCCESS, RES_CMD_ABORT]
          · by_cases hb : r.error = "ABT" <;>
              simp [hpe, is_resp_ok, ha, hs, hb,
                RES_CMD_ACK, RES_CMD_SUCCESS, RES_CMD_ABORT]

/-- Claim C5 witness: an enabled port receiving an ACK reply. -/
theorem claim_C5_witness :
    ∃ b st',
      MotorPort.rotate_by_steps { MotorPort.initState 0 with enabled := true } 10
          [some ⟨9, "", "ACK"⟩] 0 =
        (.ok (b, st'), (popEnv [some ⟨9, "", "ACK"⟩]).2,
          [⟨CMD_TYPE_SET, SEC_MOTOR_STEP,
            ({ MotorPort.initState 0 with enabled := true } : MotorState).id, 10⟩]) ∧
      (b = true ↔ (is_resp_ok (popEnv [some ⟨9, "", "ACK"⟩]).1 = .Acknowledged ∨
        is_resp_ok (popEnv [some ⟨9, "", "ACK"⟩]).1 = .Succeeded)) ∧
      (is_resp_ok (popEnv [some ⟨9, "", "ACK"⟩]).1 = .Acknowledged →
        st'.busy = true ∧
          ∃ r, (popEnv [some ⟨9, "", "ACK"⟩]).1 = some r ∧
            st'.currentSequence = r.sequence) :=
  (claim_C5_rotate_by_steps_contract { MotorPort.initState 0 with enabled := true }
    10 [some ⟨9, "", "ACK"⟩] 0).2 rfl

/-! ### Claim C6 -/

/-- Claim C6, counterexample to the statement as written: a busy port
whose in-flight sequence 42 holds a Succeeded reply gets `true` back from
`is_motion_completed`, but the returned state still carries
`busy = true` — the method never clears the busy flag, so the claimed
not-busy fast path on a subsequent call is not established. -/
theorem claim_C6_counterexample :
    MotorPort.is_motion_completed
        { MotorPort.initState 0 with enabled := true, busy := true, currentSequence := 42 }
        [(42, ⟨42, "", "SUC"⟩)] 0 =
      (.ok (true,
        { MotorPort.initState 0 with enabled := true, busy := true, currentSequence := 42 }),
       []) ∧
    ({ MotorPort.initState 0 with
        enabled := true, busy := true, currentSequence := 42 } : MotorState).busy = true := by
  constructor
  · rfl
  · rfl

/-- Claim C6 (amended): `is_motion_completed` returns true immediately
when the motor is not busy; when busy, if the non-blocking take on the
in-flight sequence yields a Succeeded or Aborted reply it returns true,
but it leaves the local state — the busy flag included — unchanged, so a
subsequent call takes the busy branch again rather than the not-busy
fast path. -/
theorem claim_C6_is_motion_completed_keeps_busy (st : MotorState) (reg : Registry)
    (now : Rat) :
    (st.busy = false → MotorPort.is_motion_completed st reg now = (.ok (true, st), reg)) ∧
    (st.busy = true →
      (is_resp_ok (retrieve_response reg st.currentSequence).1 = .Succeeded ∨
        is_resp_ok (retrieve_response reg st.currentSequence).1 = .Aborted) →
      MotorPort.is_motion_completed st reg now =
        (.ok (true, st), (retrieve_response reg st.currentSequence).2)) := by
  constructor
  · intro h
    simp [MotorPort.is_motion_completed, h]
  · intro h hsa
    rcases hpe : retrieve_response reg st.currentSequence with ⟨resp, reg1⟩
    rw [hpe] at hsa
    simp [MotorPort.is_motion_completed, h, hpe, hsa]

/-- Claim C6 witness: the amended theorem applied to the busy port with a
Succeeded reply waiting under its in-flight sequence. -/
theorem claim_C6_witness :
    MotorPort.is_motion_completed
        { MotorPort.initState 1 with enabled := true, busy := true, currentSequence := 9 }
        [(9, ⟨9, "", "ABT"⟩)] 0 =
      (.ok (true,
        { MotorPort.initState 1 with enabled := true, busy := true, currentSequence := 9 }),
       (retrieve_response [(9, ⟨9, "", "ABT"⟩)]
         ({ MotorPort.initState 1 with
             enabled := true, busy := true, currentSequence := 9 } : MotorState).currentSequence).2) :=
  (claim_C6_is_motion_completed_keeps_busy
      { MotorPort.initState 1 with enabled := true, busy := true, currentSequence := 9 }
      [(9, ⟨9, "", "ABT"⟩)] 0).2 rfl (Or.inr (by decide))

/-! ### Claim C7 -/

/-- Claim C7: the busy-poll fallback cannot run without raising.
`is_busy_from_board` evaluates `icl.SEC_MOTOR_BUSY`, an attribute that
`isotope_comms_lib.py` never defines, so the call raises
`AttributeError` before any GET is written; consequently a busy port with
no completion reply and more than the 0.1 s grace period elapsed gets an
`AttributeError` out of `is_motion_completed` instead of the claimed
exception-free negated busy result. -/
theorem claim_C7_busy_poll_raises :
    MotorPort.is_busy_from_board (MotorPort.initState 0) = .error .attributeError ∧
    MotorPort.is_motion_completed
        { MotorPort.initState 0 with enabled := true, busy := true, currentSequence := 7 }
        [] 1 =
      (.error .attributeError, []) := by
  constructor
  · rfl
  · rw [MotorPort.is_motion_completed]
    norm_num [retrieve_response, dictLookup, is_resp_ok, MotorPort.is_busy_from_board,
      MotorPort.initState]
    rintro (h | h) <;> simp at h

/-! ### Claim C8 -/

/-- Claim C8: `PowerOutputPort.enable` tests the `CmdResponseType` enum
member returned by `is_resp_ok` for truthiness, and a plain python Enum
member is always truthy, so the command is reported successful whatever
the reply status: an Acknowledged reply, an explicit device error reply
and a timeout (`None`) all make `enable` return True and cache the new
pwm — the dead `return False` branch is unreachable, contradicting the
claimed False on any non-Succeeded status. -/
theorem claim_C8_power_enable_always_true :
    PowerOutputPort.enable ⟨1, 1024, 0⟩ (some 512) [some ⟨7, "", "ACK"⟩] =
      (.ok (true, ⟨1, 1024, 512⟩), [],
        [⟨CMD_TYPE_SET, SEC_POWER_OUTPUT, 1, ((512 : Int) : Rat)⟩]) ∧
    PowerOutputPort.enable ⟨1, 1024, 0⟩ (some 512) [some ⟨7, "", "ERR4"⟩] =
      (.ok (true, ⟨1, 1024, 512⟩), [],
        [⟨CMD_TYPE_SET, SEC_POWER_OUTPUT, 1, ((512 : Int) : Rat)⟩]) ∧
    PowerOutputPort.enable ⟨1, 1024, 0⟩ (some 512) [] =
      (.ok (true, ⟨1, 1024, 512⟩), [],
        [⟨CMD_TYPE_SET, SEC_POWER_OUTPUT, 1, ((512 : Int) : Rat)⟩]) := by
  refine ⟨?_, ?_, ?_⟩ <;> rfl

/-! ### Claim C9 -/

/-- Claim C9: the step resolution is 0 right after construction, and
`configure` accepts 0 (its validation rejects only negative parameters)
and stores it; `rotate_by_degrees` divides the degrees argument by the
resolution without any guard, so with resolution 0 it raises
`ZeroDivisionError` for every degrees argument, before any command is
written. -/
theorem claim_C9_rotate_by_degrees_div_by_zero (pid : Nat) (st : MotorState)
    (cur rpm degrees : Rat) (env : Env) (now : Rat) :
    (MotorPort.initState pid).resolution = 0 ∧
    (0 ≤ cur → 0 ≤ rpm →
      ∃ st' env' cs,
        MotorPort.configure st 0 cur rpm env = (.ok ((), st'), env', cs) ∧
        st'.resolution = 0) ∧
    (st.resolution = 0 →
      MotorPort.rotate_by_degrees st degrees env now =
        (.error .zeroDivisionError, env, [])) := by
  refine ⟨rfl, ?_, ?_⟩
  · intro hcur hrpm
    have hres : ¬ ((0 : Rat) < 0) := lt_irrefl 0
    have hrpmneg : ¬ (rpm < 0) := not_lt.2 hrpm
    have hcurneg : ¬ (cur < 0) := not_lt.2 hcur
    obtain ⟨b, st2, env2, cs, heq, hres2, _, _, _, _, _⟩ :=
      configureImpl_spec
        { st with
            configured := false,
            configureRequested := true,
            resolution := 0, rpm := rpm, current := cur } env rfl
    refine ⟨st2, env2, cs, ?_, by simpa using hres2⟩
    simp [MotorPort.configure, hres, hrpmneg, hcurneg, heq]
  · intro h
    simp [MotorPort.rotate_by_degrees, h]

/-- Claim C9 witness: a freshly constructed port, configured with
resolution 0, current 400, rpm 100, raises `ZeroDivisionError` on
`rotate_by_degrees 90`. -/
theorem claim_C9_witness :
    (∃ st' env' cs,
      MotorPort.configure (MotorPort.initState 0) 0 400 100 [] =
        (.ok ((), st'), env', cs) ∧ st'.resolution = 0) ∧
    MotorPort.rotate_by_degrees (MotorPort.initState 0) 90 [] 0 =
      (.error .zeroDivisionError, [], []) :=
  ⟨(claim_C9_rotate_by_degrees_div_by_zero 0 (MotorPort.initState 0) 400 100 90 [] 0).2.1
      (by norm_num) (by norm_num),
   (claim_C9_rotate_by_degrees_div_by_zero 0 (MotorPort.initState 0) 400 100 90 [] 0).2.2 rfl⟩

/-! ### Claim C10 -/

theorem head?_append_of_head? {α : Type} (l l2 : List α) (a : α)
    (h : l.head? = some a) : (l ++ l2).head? = some a := by
  cases l with
  | nil => simp at h
  | cons c t => simpa using h

/-- Claim C10: for all non-negative arguments, `MotorPort.configure`
returns python `None` (here `Unit`) whatever replies the three parameter
pushes obtain — the caller cannot observe a configuration failure from
the return value; the failure is only visible indirectly, because a
state left unconfigured makes a later `enable()` rerun `_configure`,
whose first outgoing command is again the `Motor_rpm_speed` SET, before
the `Motor_enable` command. -/
theorem claim_C10_configure_returns_none (st : MotorState) (env : Env)
    (resolution current rpm : Rat)
    (h1 : 0 ≤ resolution) (h2 : 0 ≤ current) (h3 : 0 ≤ rpm) :
    ∃ st' env' cs,
      MotorPort.configure st resolution current rpm env = (.ok ((), st'), env', cs) ∧
      (st'.configured = false → ∀ envE : Env,
        ((MotorPort.enable st' envE).2.2).head? =
          some ⟨CMD_TYPE_SET, SEC_MOTOR_RPM_SPEED, st.id, rpm⟩) := by
  have hresneg : ¬ (resolution < 0) := not_lt.2 h1
  have hcurneg : ¬ (current < 0) := not_lt.2 h2
  have hrpmneg : ¬ (rpm < 0) := not_lt.2 h3
  obtain ⟨b, st2, env2, cs, heq, _hres2, hrpm2, _hcur2, hid2, himpl, _hhead⟩ :=
    configureImpl_spec
      { st with
          configured := false,
          configureRequested := true,
          resolution := resolution, rpm := rpm, current := current } env rfl
  have hrpm' : st2.rpm = rpm := by simpa using hrpm2
  have hid' : st2.id = st.id := by simpa using hid2
  refine ⟨st2, env2, cs, ?_, ?_⟩
  · simp [MotorPort.configure, hresneg, hcurneg, hrpmneg, heq]
  · intro hconf envE
    obtain ⟨b2, st3, env3, cs2, heq2, _, _, _, _, _, hhead2⟩ :=
      configureImpl_spec st2 envE (himpl hconf)
    have hsent : (MotorPort.enable st2 envE).2.2 =
        cs2 ++ [⟨CMD_TYPE_SET, SEC_MOTOR_ENABLE, st2.id, 1⟩] := by
      rcases hpe : popEnv env3 with ⟨resp, env4⟩
      by_cases hok : is_resp_ok resp = .Succeeded <;>
        simp [MotorPort.enable, hconf, heq2, hpe, hok]
    rw [hsent]
    rw [hid', hrpm'] at hhead2
    exact head?_append_of_head? cs2 _ _ hhead2

/-- Claim C10 witness: a fresh port configured against a dead link (all
three pushes time out): `configure` still hands back `None`, the state is
left unconfigured, and the very next `enable` starts by resending the
rpm parameter. -/
theorem claim_C10_witness :
    ∃ st' env' cs,
      MotorPort.configure (MotorPort.initState 0) 2 3 4 [] = (.ok ((), st'), env', cs) ∧
      (st'.configured = false → ∀ envE : Env,
        ((MotorPort.enable st' envE).2.2).head? =
          some ⟨CMD_TYPE_SET, SEC_MOTOR_RPM_SPEED, (MotorPort.initState 0).id, 4⟩) :=
  claim_C10_configure_returns_none (MotorPort.initState 0) [] 2 3 4
    (by norm_num) (by norm_num) (by norm_num)

end IsotopeSDK
